import Mathlib

/-!
Verification of the video-montage job pipeline against its specification.

The definitions below are a shallow embedding of the repository's Python
sources:

* `src/app/video_processor.py` — download loop, karaoke subtitle
  generation, merge command plan, circle-overlay command construction;
* `src/app/main.py` — the in-memory job registry and its capacity
  eviction;
* `src/montage/app/tasks.py` and `src/avatar/app/tasks.py` — the
  Redis-backed status stores and the montage monitor's poll loop;
* `src/avatar/app/api/endpoints/callbacks.py` — the webhook correlator's
  record update;
* `src/avatar/app/services/montage_service.py` — monitor scheduling.

Seconds and derived durations are modelled as exact rationals; Python's
`int()` truncation toward zero is modelled by `pytrunc` (floor for
non-negative values, ceiling for negative ones).
-/

namespace VideoMontage

/-- Python `int()` on a rational: truncation toward zero. -/
def pytrunc (q : ℚ) : ℤ :=
  if 0 ≤ q then ⌊q⌋ else ⌈q⌉

/-- Helper for `pySplit`: walk the characters, accumulating the current
word (in reverse) and emitting it at each whitespace run or at the end. -/
def splitWordsAux : List Char → List Char → List String
  | [], [] => []
  | [], acc => [String.mk acc.reverse]
  | c :: rest, acc =>
    if c.isWhitespace then
      match acc with
      | [] => splitWordsAux rest []
      | _ => String.mk acc.reverse :: splitWordsAux rest []
    else
      splitWordsAux rest (c :: acc)

/-- Python `str.split()` with no argument: split on whitespace runs and
drop empty fragments. Used by `create_ass_karaoke_subtitles` via
`subtitle.text.split()` (src/app/video_processor.py line 218). -/
def pySplit (s : String) : List String :=
  splitWordsAux s.data []

/-- A subtitle cue, from `SubtitleItem` in `src/app/models.py`:
start and end in seconds, plus the text. -/
structure SubtitleItem where
  start : ℚ
  stop : ℚ
  text : String
deriving DecidableEq, Repr

/-- One karaoke dialogue line as produced for a cue by
`create_ass_karaoke_subtitles` (src/app/video_processor.py lines 213-236):
the cue bounds, the per-word highlight duration in centiseconds
(the value of each word's karaoke tag), and the split words. -/
structure KaraokeLine where
  start : ℚ
  stop : ℚ
  durCs : ℤ
  words : List String
deriving DecidableEq, Repr

/-- Embedding of the per-cue loop of `create_ass_karaoke_subtitles`
(src/app/video_processor.py lines 213-236): split the text into words,
skip the cue when no words remain (`if not words: continue`), otherwise
compute `time_per_word_cs = int((total_duration * 100) / len(words))` and
clamp it to `max(20, min(200, ·))` centiseconds, emitting one dialogue
line. -/
def createAssKaraokeSubtitles (subs : List SubtitleItem) : List KaraokeLine :=
  subs.filterMap fun sub =>
    let words := pySplit sub.text
    let totalDuration : ℚ := sub.stop - sub.start
    if words = [] then
      none
    else
      let timePerWordCs : ℤ := pytrunc ((totalDuration * 100) / (words.length : ℚ))
      let timePerWordCs : ℤ := max 20 (min 200 timePerWordCs)
      some { start := sub.start, stop := sub.stop, durCs := timePerWordCs, words := words }

/-- The per-word duration in milliseconds that the claim asserts:
`clamp(cue_duration_ms / word_count, 200, 2000)`, with exact division. -/
def claimedKaraokeMs (sub : SubtitleItem) : ℚ :=
  max 200 (min 2000 ((sub.stop - sub.start) * 1000 / ((pySplit sub.text).length : ℚ)))

/-- The amended per-word duration in centiseconds: truncate the per-word
cue duration to whole centiseconds first, then clamp to [20, 200]
centiseconds (200 ms to 2000 ms). -/
def amendedKaraokeCs (sub : SubtitleItem) : ℤ :=
  max 20 (min 200 (pytrunc ((sub.stop - sub.start) * 100 / ((pySplit sub.text).length : ℚ))))

/-- Spec-side rendering of the amended claim: keep exactly the cues with at
least one word, and give each the amended clamped duration. -/
def amendedKaraokeSpec (subs : List SubtitleItem) : List KaraokeLine :=
  (subs.filter (fun sub => pySplit sub.text ≠ [])).map fun sub =>
    { start := sub.start, stop := sub.stop, durCs := amendedKaraokeCs sub,
      words := pySplit sub.text }

/-- The cue refuting the claim's millisecond formula: 0.625 seconds, one
word. The code truncates 62.5 centiseconds to 62 (620 ms), while the
claimed formula yields 625 ms. -/
def c3Cue : SubtitleItem := { start := 0, stop := 5/8, text := "hello" }

theorem pySplit_hello : pySplit "hello" = ["hello"] := by decide

/-- C3 counterexample: at a 0.625-second single-word cue the karaoke
renderer assigns 620 ms per word (62 whole centiseconds), not the claimed
`clamp(cue_duration_ms / word_count, 200, 2000) = 625` ms. -/
theorem c3_karaoke_ms_counterexample :
    ¬ ((createAssKaraokeSubtitles [c3Cue]).map (fun l => (l.durCs : ℚ) * 10)
        = [claimedKaraokeMs c3Cue]) := by
  have hsplit := pySplit_hello
  have hcode : (createAssKaraokeSubtitles [c3Cue]).map (fun l => (l.durCs : ℚ) * 10)
      = [620] := by
    simp only [createAssKaraokeSubtitles, c3Cue, List.filterMap, hsplit]
    norm_num [pytrunc, Int.floor_eq_iff, max_def, min_def]
  have hclaim : claimedKaraokeMs c3Cue = 625 := by
    simp only [claimedKaraokeMs, c3Cue, hsplit]
    rw [max_def, min_def]
    norm_num
  rw [hcode, hclaim]
  intro h
  have := List.head_eq_of_cons_eq h
  norm_num at this

/-- C3 amended: the karaoke renderer emits one dialogue line per cue that
has at least one word (cues with no words are skipped), and assigns each
word the clamped truncated centisecond duration
`max 20 (min 200 (trunc(cue_duration_seconds * 100 / word_count)))`;
moreover the spec's three examples hold: a 4-second 4-word cue gets
100 cs (1000 ms), a 0.1-second 1-word cue is clamped to 20 cs (200 ms),
and a 10-second 2-word cue is clamped to 200 cs (2000 ms). -/
theorem c3_karaoke_timing_amended :
    (∀ subs : List SubtitleItem,
      createAssKaraokeSubtitles subs = amendedKaraokeSpec subs)
    ∧ (createAssKaraokeSubtitles [⟨0, 4, "a b c d"⟩]).map (fun l => l.durCs) = [100]
    ∧ (createAssKaraokeSubtitles [⟨0, 1/10, "x"⟩]).map (fun l => l.durCs) = [20]
    ∧ (createAssKaraokeSubtitles [⟨0, 10, "p q"⟩]).map (fun l => l.durCs) = [200] := by
  refine ⟨?_, ?_, ?_, ?_⟩
  · intro subs
    induction subs with
    | nil => rfl
    | cons sub rest ih =>
      simp only [createAssKaraokeSubtitles, amendedKaraokeSpec, List.filterMap,
        List.filter] at ih ⊢
      by_cases h : pySplit sub.text = []
      · simp [h, ih]
      · simp [h, ih, amendedKaraokeCs]
  · have hsplit : pySplit "a b c d" = ["a", "b", "c", "d"] := by decide
    simp only [createAssKaraokeSubtitles, List.filterMap, hsplit]
    norm_num [pytrunc, Int.floor_eq_iff, max_def, min_def]
    all_goals simp
  · have hsplit : pySplit "x" = ["x"] := by decide
    simp only [createAssKaraokeSubtitles, List.filterMap, hsplit]
    norm_num [pytrunc, Int.floor_eq_iff, max_def, min_def]
  · have hsplit : pySplit "p q" = ["p", "q"] := by decide
    simp only [createAssKaraokeSubtitles, List.filterMap, hsplit]
    norm_num [pytrunc, Int.floor_eq_iff, max_def, min_def]
    all_goals simp

/-! ### Progress checkpoints (C5)

`merge_videos` (src/app/video_processor.py lines 253-417) reports fixed
progress checkpoints through `progress_callback`: 5 after start, 20 after
the download batch, 40 after concatenation, 50 and 70 around the subtitle
stage (only when subtitle data is supplied), 80 after audio preparation
(only when music is supplied), and 95 before returning.
`process_circle_video` (lines 422-499) reports 5, 15, 30, 100.
The owning worker (src/montage/app/tasks.py) writes progress 0.0 when the
job starts and 100.0 at the terminal completed transition. -/

/-- The checkpoint values `merge_videos` emits in source order, as a
function of whether subtitle data and music are supplied. -/
def mergeProgressCheckpoints (hasSubs hasMusic : Bool) : List ℚ :=
  [5, 20, 40] ++ (if hasSubs then [50, 70] else [])
    ++ (if hasMusic then [80] else []) ++ [95]

/-- The full progress sequence published for one merge job: the worker's
initial 0.0, the pipeline checkpoints, and the final 100.0 written at
completion. -/
def mergeJobProgress (hasSubs hasMusic : Bool) : List ℚ :=
  0 :: mergeProgressCheckpoints hasSubs hasMusic ++ [100]

/-- The checkpoint values `process_circle_video` emits in source order. -/
def circleProgressCheckpoints : List ℚ :=
  [5, 15, 30, 100]

/-- The full progress sequence published for one circle-overlay job. -/
def circleJobProgress : List ℚ :=
  0 :: circleProgressCheckpoints ++ [100]

/-- C5: for every merge-job configuration (with or without subtitles, with
or without music) the published progress sequence is monotonically
non-decreasing and every value lies in [0, 100]; the same holds for the
circle-overlay job's sequence. -/
theorem c5_progress_monotone :
    (∀ hasSubs hasMusic : Bool,
      (mergeJobProgress hasSubs hasMusic).Chain' (· ≤ ·)
      ∧ ∀ p ∈ mergeJobProgress hasSubs hasMusic, 0 ≤ p ∧ p ≤ 100)
    ∧ (circleJobProgress.Chain' (· ≤ ·)
      ∧ ∀ p ∈ circleJobProgress, 0 ≤ p ∧ p ≤ 100) := by
  refine ⟨fun hasSubs hasMusic => ?_, ?_⟩
  · cases hasSubs <;> cases hasMusic <;>
      constructor <;>
        simp [mergeJobProgress, mergeProgressCheckpoints, List.chain'_cons] <;>
          norm_num
  · constructor <;>
      simp [circleJobProgress, circleProgressCheckpoints, List.chain'_cons] <;>
        norm_num

/-! ### Circular mask (C7)

The circle compositor's filter graph (src/app/video_processor.py lines
465-472) builds the overlay's alpha channel with the `geq` expression
`a='if(lte(pow(X-W/2,2)+pow(Y-H/2,2),pow(min(W,H)/2,2)),255,0)'`:
alpha 255 (opaque, pixel included) when
`(x-W/2)^2 + (y-H/2)^2 <= (min(W,H)/2)^2`, else alpha 0. -/

/-- Semantics of the mask's `geq` alpha expression at pixel `(x, y)` of a
`w × h` overlay frame: 255 when the squared distance from the frame's own
center is at most `(min w h / 2)^2` (the `lte` comparison), 0 otherwise. -/
def maskAlpha (w h x y : ℚ) : ℕ :=
  if (x - w / 2) ^ 2 + (y - h / 2) ^ 2 ≤ (min w h / 2) ^ 2 then 255 else 0

/-- C7: a pixel is included in the circular mask (alpha 255) exactly when
`(x-cx)^2 + (y-cy)^2 ≤ r^2` with `r = min(w,h)/2` and `(cx, cy) =
(w/2, h/2)` the mask's own center; membership is inclusive at the
boundary, so a pixel at squared distance exactly `r^2` is inside. -/
theorem c7_circular_mask (w h x y : ℚ) :
    (maskAlpha w h x y = 255 ↔
      (x - w / 2) ^ 2 + (y - h / 2) ^ 2 ≤ (min w h / 2) ^ 2)
    ∧ ((x - w / 2) ^ 2 + (y - h / 2) ^ 2 = (min w h / 2) ^ 2 →
      maskAlpha w h x y = 255) := by
  constructor
  · rw [maskAlpha]
    split
    · next hin => exact ⟨fun _ => hin, fun _ => rfl⟩
    · next hout => exact ⟨fun habs => absurd habs (by norm_num), fun hin => absurd hin hout⟩
  · intro hb
    rw [maskAlpha, if_pos hb.le]

/-- C7 witness: on a 4×4 mask frame, the boundary pixel (4, 2) — at
distance exactly `r = 2` from the center (2, 2) — is included. -/
theorem c7_circular_mask_witness :
    (4 - (4 : ℚ) / 2) ^ 2 + (2 - (4 : ℚ) / 2) ^ 2 = (min (4 : ℚ) 4 / 2) ^ 2
    ∧ maskAlpha 4 4 4 2 = 255 := by
  have hb : (4 - (4 : ℚ) / 2) ^ 2 + (2 - (4 : ℚ) / 2) ^ 2 = (min (4 : ℚ) 4 / 2) ^ 2 := by
    rw [min_self]
    norm_num
  exact ⟨hb, (c7_circular_mask 4 4 4 2).2 hb⟩

/-! ### Circle-overlay invocation (C8)

`process_circle_video` (src/app/video_processor.py lines 422-499) probes
the circle (overlay) video with ffprobe, takes `duration =
circle_info.get('duration', 0)`, and builds one ffmpeg invocation whose
duration limit is `'-t', str(duration)`. -/

/-- The probe result of `get_video_info`
(src/app/video_processor.py lines 140-171). -/
structure VideoInfo where
  duration : ℚ
  hasAudio : Bool
  width : ℕ
  height : ℕ
deriving DecidableEq, Repr

/-- The `filter_complex` string of `process_circle_video`
(src/app/video_processor.py lines 465-472), with the caller-supplied
volume factors interpolated. -/
def circleFilterComplex (backgroundVolume circleVolume : ℚ) : String :=
  "[1:v][0:v]scale2ref=w=iw*0.6:h=iw*0.6[over][bg];"
    ++ "[over]format=yuva420p,geq=lum=\x27p(X,Y)\x27:a=\x27if(lte(pow(X-W/2,2)+pow(Y-H/2,2),pow(min(W,H)/2,2)),255,0)\x27[circular];"
    ++ "[bg][circular]overlay=x=W-w-20:y=H-h-20[v];"
    ++ "[0:a]volume=" ++ toString backgroundVolume ++ "[a0];"
    ++ "[1:a]volume=" ++ toString circleVolume ++ "[a1];"
    ++ "[a0][a1]amix=inputs=2:duration=first[a]"

/-- The ffmpeg argument vector built by `process_circle_video`
(src/app/video_processor.py lines 474-487). -/
def processCircleCmd (workDir : String) (backgroundVolume circleVolume : ℚ)
    (duration : ℚ) (outputFilename : String) : List String :=
  ["ffmpeg",
   "-i", workDir ++ "/background.mp4",
   "-i", workDir ++ "/circle.mp4",
   "-filter_complex", circleFilterComplex backgroundVolume circleVolume,
   "-map", "[v]",
   "-map", "[a]",
   "-c:v", "libx264",
   "-preset", "fast",
   "-c:a", "aac",
   "-t", toString duration,
   workDir ++ "/" ++ outputFilename,
   "-y"]

/-- The invocation as issued by the task: the duration limit is the
overlay (circle) video's probed duration
(src/app/video_processor.py lines 452-487; the background video is never
probed). -/
def processCircleInvocation (workDir : String) (backgroundVolume circleVolume : ℚ)
    (circleInfo : VideoInfo) (outputFilename : String) : List String :=
  processCircleCmd workDir backgroundVolume circleVolume circleInfo.duration outputFilename

/-- C8: for every circle-overlay job the composite ffmpeg invocation
carries a `-t` duration limit whose value is exactly the overlay video's
probed duration — position 17 of the argument vector is the `-t` flag and
position 18 its value — so the output duration is capped to the overlay's
duration, independent of any background probe (the invocation is built
from the circle probe only). -/
theorem c8_duration_cap_is_overlay_duration
    (workDir : String) (backgroundVolume circleVolume : ℚ)
    (circleInfo : VideoInfo) (outputFilename : String) :
    (processCircleInvocation workDir backgroundVolume circleVolume circleInfo outputFilename)[17]?
        = some "-t"
    ∧ (processCircleInvocation workDir backgroundVolume circleVolume circleInfo outputFilename)[18]?
        = some (toString circleInfo.duration) := by
  exact ⟨rfl, rfl⟩

/-! ### Merge pipeline command plan (C9)

`merge_videos` (src/app/video_processor.py lines 253-417) runs, in order:
the concat invocation, an optional subtitle burn invocation, and — only
when `music_path` is supplied — an audio-preparation invocation followed
by a mux invocation; without music the current visual artifact is copied
to the final output with `'-c', 'copy'`. -/

/-- Caller style for the SRT path, from `SubtitleStyle` in
`src/app/models.py`. -/
structure SubtitleStyle where
  fontName : String := "Arial"
  fontSize : ℤ := 12
  fontColor : String := "&Hffffff"
  backgroundColor : String := "&H80000000"
  bold : Bool := true
  alignment : ℤ := 2
  marginV : ℤ := 30
deriving DecidableEq, Repr

/-- The concat invocation (src/app/video_processor.py lines 290-293). -/
def concatCmd (workDir : String) : List String :=
  ["ffmpeg", "-f", "concat", "-safe", "0", "-i", workDir ++ "/concat_list.txt",
   "-c:v", "copy", "-c:a", "aac", "-strict", "experimental",
   workDir ++ "/merged_base.mp4", "-y"]

/-- The karaoke subtitle burn invocation
(src/app/video_processor.py lines 334-338). -/
def karaokeBurnCmd (workDir currentVideo : String) : List String :=
  ["ffmpeg", "-i", currentVideo, "-vf", "ass=" ++ workDir ++ "/subtitles.ass",
   "-c:a", "copy", workDir ++ "/video_with_subtitles.mp4", "-y"]

/-- The SRT subtitle burn invocation with its `force_style` argument
(src/app/video_processor.py lines 341-348). -/
def srtBurnCmd (workDir currentVideo : String) (style : SubtitleStyle) : List String :=
  ["ffmpeg", "-i", currentVideo, "-vf",
   "subtitles=" ++ workDir ++ "/subtitles.srt:force_style=\x27FontName=" ++ style.fontName
     ++ ",FontSize=" ++ toString style.fontSize
     ++ ",PrimaryColour=" ++ style.fontColor
     ++ ",BackColour=" ++ style.backgroundColor
     ++ ",Bold=" ++ (if style.bold then "1" else "0")
     ++ ",Alignment=" ++ toString style.alignment
     ++ ",MarginV=" ++ toString style.marginV ++ "\x27",
   "-c:a", "copy", workDir ++ "/video_with_subtitles.mp4", "-y"]

/-- The audio-preparation invocation: loop the music to the video's
duration (src/app/video_processor.py lines 375-379). -/
def audioPrepCmd (musicPath : String) (videoDuration : ℚ) (workDir : String) : List String :=
  ["ffmpeg", "-stream_loop", "-1", "-i", musicPath, "-t", toString videoDuration,
   "-acodec", "libmp3lame", "-ab", "128k", workDir ++ "/prepared_audio.mp3", "-y"]

/-- The final mux-with-music invocation
(src/app/video_processor.py lines 393-398). -/
def finalMusicCmd (currentVideo preparedAudio finalOutput : String) : List String :=
  ["ffmpeg", "-i", currentVideo, "-i", preparedAudio, "-map", "0:v", "-map", "1:a",
   "-c:v", "libx264", "-c:a", "aac", "-strict", "experimental", "-shortest",
   finalOutput, "-y"]

/-- The no-music final invocation: stream-copy the current visual
artifact to the final output (src/app/video_processor.py lines 406-409). -/
def finalCopyCmd (currentVideo finalOutput : String) : List String :=
  ["ffmpeg", "-i", currentVideo, "-c", "copy", finalOutput, "-y"]

/-- A merge job's configuration as seen by `merge_videos`: the subtitle
data (Python `None` and the empty list are both falsy for
`if subtitles_data:`), the karaoke flag, the optional downloaded music
path, whether the subtitle burn tool exited 0 (on failure the pipeline
continues with the pre-subtitle artifact), the probed duration of the
current video (used only on the music path), and the output filename. -/
structure MergeConfig where
  subtitlesData : List SubtitleItem
  karaokeMode : Bool
  music : Option String
  subtitleBurnOk : Bool
  videoDuration : ℚ
  outputFilename : String
deriving DecidableEq, Repr

/-- The path of the visual artifact after the (optional) subtitle stage:
`video_with_subtitles.mp4` only when subtitles were supplied and the burn
succeeded, else the concat output
(src/app/video_processor.py lines 305, 355-360). -/
def currentVideoAfterSubtitles (workDir : String) (cfg : MergeConfig) : String :=
  if !cfg.subtitlesData.isEmpty && cfg.subtitleBurnOk then
    workDir ++ "/video_with_subtitles.mp4"
  else
    workDir ++ "/merged_base.mp4"

/-- The ordered list of external-tool invocations `merge_videos`
constructs on its success path (src/app/video_processor.py lines
264-417): concat, then the subtitle burn when subtitle data is supplied
(karaoke or SRT variant), then either audio preparation plus mux (music
supplied) or the plain stream copy (no music). -/
def mergeCmdPlan (workDir : String) (cfg : MergeConfig) : List (List String) :=
  let base := workDir ++ "/merged_base.mp4"
  let subStage : List (List String) :=
    if cfg.subtitlesData.isEmpty then []
    else if cfg.karaokeMode then [karaokeBurnCmd workDir base]
    else [srtBurnCmd workDir base {}]
  let current := currentVideoAfterSubtitles workDir cfg
  let finalOutput := workDir ++ "/" ++ cfg.outputFilename
  let tailStage : List (List String) :=
    match cfg.music with
    | some musicPath =>
        [audioPrepCmd musicPath cfg.videoDuration workDir,
         finalMusicCmd current (workDir ++ "/prepared_audio.mp3") finalOutput]
    | none => [finalCopyCmd current finalOutput]
  concatCmd workDir :: (subStage ++ tailStage)

/-- C9: for every merge job without music the last constructed invocation
is the stream-copy of the current visual artifact to the final output
(`'-c', 'copy'`, no re-encode), and no audio-preparation invocation
appears anywhere in the plan. -/
theorem c9_no_music_copy_through (workDir : String) (cfg : MergeConfig)
    (hmusic : cfg.music = none) :
    (mergeCmdPlan workDir cfg).getLast?
      = some (finalCopyCmd (currentVideoAfterSubtitles workDir cfg)
          (workDir ++ "/" ++ cfg.outputFilename))
    ∧ ∀ musicPath duration,
        audioPrepCmd musicPath duration workDir ∉ mergeCmdPlan workDir cfg := by
  unfold mergeCmdPlan
  rw [hmusic]
  constructor
  · rw [← List.cons_append, List.getLast?_concat]
  · intro musicPath duration hmem
    simp only [List.mem_cons, List.mem_append, List.mem_singleton,
      List.not_mem_nil, or_false] at hmem
    rcases hmem with h | h | h
    · have := congrArg (fun l => l[1]?) h
      simp [audioPrepCmd, concatCmd] at this
    · by_cases hempty : cfg.subtitlesData.isEmpty <;>
        by_cases hk : cfg.karaokeMode <;>
          simp [hempty, hk] at h <;>
            · have := congrArg (fun l => l[1]?) h
              simp [audioPrepCmd, karaokeBurnCmd, srtBurnCmd] at this
    · have := congrArg (fun l => l[1]?) h
      simp [audioPrepCmd, finalCopyCmd] at this

/-- C9 witness: the plan of a concrete merge job with two sources, no
music and no subtitles ends in the stream-copy invocation and contains no
audio-preparation invocation. -/
theorem c9_no_music_copy_through_witness :
    (mergeCmdPlan "/tmp/work"
        { subtitlesData := [], karaokeMode := false, music := none,
          subtitleBurnOk := true, videoDuration := 0,
          outputFilename := "merged_video.mp4" }).getLast?
      = some (finalCopyCmd
          (currentVideoAfterSubtitles "/tmp/work"
            { subtitlesData := [], karaokeMode := false, music := none,
              subtitleBurnOk := true, videoDuration := 0,
              outputFilename := "merged_video.mp4" })
          ("/tmp/work" ++ "/" ++ "merged_video.mp4"))
    ∧ ∀ musicPath duration,
        audioPrepCmd musicPath duration "/tmp/work" ∉ mergeCmdPlan "/tmp/work"
          { subtitlesData := [], karaokeMode := false, music := none,
            subtitleBurnOk := true, videoDuration := 0,
            outputFilename := "merged_video.mp4" } :=
  c9_no_music_copy_through "/tmp/work"
    { subtitlesData := [], karaokeMode := false, music := none,
      subtitleBurnOk := true, videoDuration := 0,
      outputFilename := "merged_video.mp4" } rfl

/-! ### Download batch policy (C2)

`download_video` (src/app/video_processor.py lines 122-138) raises
`HTTPException` on a non-200 response (the inner raise is itself caught
by the function's broad `except` and re-raised as `HTTPException(400,
"Error downloading video: ...")`) and on any transport or filesystem
error; it returns `None` only in the no-exception case where the output
file does not exist after the write. The download loop of `merge_videos`
(lines 270-279) collects the non-`None` results and raises
`HTTPException(400, "No videos were downloaded successfully")` when the
collected list is empty. -/

/-- A Python exception value as observed at the API boundary. -/
inductive PyError where
  | httpException (status : ℕ) (detail : String)
deriving DecidableEq, Repr

/-- How one source URL's fetch behaves. -/
inductive FetchOutcome where
  | ok
  | okFileMissing
  | httpError (status : ℕ)
  | exn (msg : String)
deriving DecidableEq, Repr

/-- Embedding of `download_video` (src/app/video_processor.py lines
122-138) for a given fetch behavior and output filename: a 200 response
with the file present returns the path; a 200 response with the file
absent returns `none`; a non-200 response or any raised error escapes as
an `HTTPException(400, "Error downloading video: ...")`. -/
def downloadVideo (fetch : FetchOutcome) (url outputFilename : String) :
    Except PyError (Option String) :=
  match fetch with
  | .ok => .ok (some outputFilename)
  | .okFileMissing => .ok none
  | .httpError _ =>
      .error (.httpException 400
        ("Error downloading video: 400: Failed to download video: " ++ url))
  | .exn msg => .error (.httpException 400 ("Error downloading video: " ++ msg))

/-- The download loop of `merge_videos` (src/app/video_processor.py lines
270-273): iterate the sources in caller order, naming the i-th file
`video_{i+1}.mp4`, keeping the successfully returned paths; an exception
from any single download propagates and aborts the loop. -/
def downloadLoop (workDir : String) : List (String × FetchOutcome) → ℕ →
    Except PyError (List String)
  | [], _ => .ok []
  | (url, fetch) :: rest, i =>
    match downloadVideo fetch url (workDir ++ "/video_" ++ toString (i + 1) ++ ".mp4") with
    | .error e => .error e
    | .ok none => downloadLoop workDir rest (i + 1)
    | .ok (some path) =>
      match downloadLoop workDir rest (i + 1) with
      | .error e => .error e
      | .ok paths => .ok (path :: paths)

/-- The download stage of `merge_videos` (src/app/video_processor.py
lines 270-279): run the loop, then fail with
`"No videos were downloaded successfully"` when nothing was collected. -/
def mergeDownloadStage (workDir : String) (sources : List (String × FetchOutcome)) :
    Except PyError (List String) :=
  match downloadLoop workDir sources 0 with
  | .error e => .error e
  | .ok [] => .error (.httpException 400 "No videos were downloaded successfully")
  | .ok paths => .ok paths

/-- C2 failing input: with N = 2 sources of which the first download
fails (K = 1 < N), the download stage aborts the whole job with the
download error instead of proceeding with the one fetched source; a
successful pair is kept in caller order; and with both downloads failing
(K = N = 2) the stage aborts with the first download's error, not with
the no-sources error — `"No videos were downloaded successfully"` is
reachable only when the source list itself is empty. -/
theorem c2_partial_download_aborts_job :
    mergeDownloadStage "/tmp/work"
        [("http://a/1.mp4", .httpError 500), ("http://a/2.mp4", .ok)]
      = .error (.httpException 400
          "Error downloading video: 400: Failed to download video: http://a/1.mp4")
    ∧ mergeDownloadStage "/tmp/work"
        [("http://a/1.mp4", .ok), ("http://a/2.mp4", .ok)]
      = .ok ["/tmp/work/video_1.mp4", "/tmp/work/video_2.mp4"]
    ∧ mergeDownloadStage "/tmp/work"
        [("http://a/1.mp4", .httpError 500), ("http://a/2.mp4", .httpError 404)]
      = .error (.httpException 400
          "Error downloading video: 400: Failed to download video: http://a/1.mp4")
    ∧ mergeDownloadStage "/tmp/work" []
      = .error (.httpException 400 "No videos were downloaded successfully") := by
  refine ⟨rfl, rfl, rfl, rfl⟩

/-! ### External job monitor (C6)

`monitor_montage_task` (src/avatar/app/tasks.py lines 85-172) polls the
montage service's status endpoint in a loop of `max_retries = 240`
iterations (source comment: `240 * 15s = 60 minutes max wait time`).
Each iteration that observes neither a remote `completed` nor a remote
`failed` (non-200 response, non-terminal status, or a raised exception)
sleeps 15 seconds and continues; on exhausting the loop the task writes
the timeout failure (`status = "error"`, error `"Timeout waiting for
montage"`) and returns `"timeout"`. -/

/-- What one poll iteration observes. -/
inductive PollObs where
  | completedOk
  | completedDownloadFail (code : ℕ)
  | failedRemote (msg : String)
  | pending
  | badResponse
  | exnRaised
deriving DecidableEq, Repr

/-- An observation is non-terminal when the remote reports neither
`completed` nor `failed`: a non-terminal status, a non-200 status
response, or an exception during the request. -/
def PollObs.isNonTerminal : PollObs → Bool
  | .pending => true
  | .badResponse => true
  | .exnRaised => true
  | _ => false

/-- The poll interval in seconds: `time.sleep(15)`
(src/avatar/app/tasks.py line 165). -/
def POLL_INTERVAL : ℕ := 15

/-- The bounded attempt count: `max_retries = 240`
(src/avatar/app/tasks.py line 96). -/
def MAX_RETRIES : ℕ := 240

/-- The observable result of one monitor run: the task's return value,
the status written to the job record, the number of poll attempts
performed, and the total seconds slept. -/
structure MonitorRun where
  retVal : String
  dbStatus : String
  attempts : ℕ
  elapsedSeconds : ℕ
deriving DecidableEq, Repr

/-- The polling loop of `monitor_montage_task` (src/avatar/app/tasks.py
lines 98-172), with the i-th iteration's observation given by `polls i`:
a terminal observation finalizes and returns without sleeping; a
non-terminal one sleeps `POLL_INTERVAL` seconds and continues; when the
`remaining` budget is exhausted the timeout failure is written. -/
def monitorLoop (polls : ℕ → PollObs) : ℕ → ℕ → ℕ → MonitorRun
  | 0, attempts, elapsed =>
      { retVal := "timeout", dbStatus := "error",
        attempts := attempts, elapsedSeconds := elapsed }
  | remaining + 1, attempts, elapsed =>
    match polls attempts with
    | .completedOk =>
        { retVal := "success", dbStatus := "ready",
          attempts := attempts + 1, elapsedSeconds := elapsed }
    | .completedDownloadFail _ =>
        { retVal := "download_failed", dbStatus := "error",
          attempts := attempts + 1, elapsedSeconds := elapsed }
    | .failedRemote _ =>
        { retVal := "failed", dbStatus := "error",
          attempts := attempts + 1, elapsedSeconds := elapsed }
    | .pending | .badResponse | .exnRaised =>
        monitorLoop polls remaining (attempts + 1) (elapsed + POLL_INTERVAL)

/-- One full run of `monitor_montage_task`'s loop. -/
def monitorMontageTask (polls : ℕ → PollObs) : MonitorRun :=
  monitorLoop polls MAX_RETRIES 0 0

theorem monitorLoop_all_nonterminal (polls : ℕ → PollObs)
    (hnt : ∀ i, (polls i).isNonTerminal = true) :
    ∀ remaining attempts elapsed,
      monitorLoop polls remaining attempts elapsed
        = { retVal := "timeout", dbStatus := "error",
            attempts := attempts + remaining,
            elapsedSeconds := elapsed + POLL_INTERVAL * remaining } := by
  intro remaining
  induction remaining with
  | zero => intro attempts elapsed; simp [monitorLoop]
  | succ n ih =>
    intro attempts elapsed
    have h := hnt attempts
    rw [monitorLoop]
    cases hp : polls attempts with
    | completedOk => rw [hp] at h; exact absurd h (by decide)
    | completedDownloadFail code => rw [hp] at h; simp [PollObs.isNonTerminal] at h
    | failedRemote msg => rw [hp] at h; simp [PollObs.isNonTerminal] at h
    | pending =>
        show monitorLoop polls n (attempts + 1) (elapsed + POLL_INTERVAL) = _
        rw [ih]
        simp only [MonitorRun.mk.injEq]
        exact ⟨trivial, trivial, by omega, by simp only [POLL_INTERVAL]; omega⟩
    | badResponse =>
        show monitorLoop polls n (attempts + 1) (elapsed + POLL_INTERVAL) = _
        rw [ih]
        simp only [MonitorRun.mk.injEq]
        exact ⟨trivial, trivial, by omega, by simp only [POLL_INTERVAL]; omega⟩
    | exnRaised =>
        show monitorLoop polls n (attempts + 1) (elapsed + POLL_INTERVAL) = _
        rw [ih]
        simp only [MonitorRun.mk.injEq]
        exact ⟨trivial, trivial, by omega, by simp only [POLL_INTERVAL]; omega⟩

theorem monitorLoop_timeout_exhausts (polls : ℕ → PollObs) :
    ∀ remaining attempts elapsed,
      (monitorLoop polls remaining attempts elapsed).retVal = "timeout" →
      (monitorLoop polls remaining attempts elapsed).attempts = attempts + remaining
      ∧ (monitorLoop polls remaining attempts elapsed).elapsedSeconds
          = elapsed + POLL_INTERVAL * remaining := by
  intro remaining
  induction remaining with
  | zero => intro attempts elapsed _; simp [monitorLoop]
  | succ n ih =>
    intro attempts elapsed hret
    rw [monitorLoop] at hret ⊢
    cases hp : polls attempts with
    | completedOk => rw [hp] at hret; simp at hret
    | completedDownloadFail code => rw [hp] at hret; simp at hret
    | failedRemote msg => rw [hp] at hret; simp at hret
    | pending =>
        rw [hp] at hret
        obtain ⟨h1, h2⟩ := ih (attempts + 1) (elapsed + POLL_INTERVAL) hret
        refine ⟨?_, ?_⟩
        · show (monitorLoop polls n (attempts + 1) (elapsed + POLL_INTERVAL)).attempts
            = attempts + (n + 1)
          omega
        · show (monitorLoop polls n (attempts + 1) (elapsed + POLL_INTERVAL)).elapsedSeconds
            = elapsed + POLL_INTERVAL * (n + 1)
          simp [POLL_INTERVAL] at h2 ⊢
          omega
    | badResponse =>
        rw [hp] at hret
        obtain ⟨h1, h2⟩ := ih (attempts + 1) (elapsed + POLL_INTERVAL) hret
        refine ⟨?_, ?_⟩
        · show (monitorLoop polls n (attempts + 1) (elapsed + POLL_INTERVAL)).attempts
            = attempts + (n + 1)
          omega
        · show (monitorLoop polls n (attempts + 1) (elapsed + POLL_INTERVAL)).elapsedSeconds
            = elapsed + POLL_INTERVAL * (n + 1)
          simp [POLL_INTERVAL] at h2 ⊢
          omega
    | exnRaised =>
        rw [hp] at hret
        obtain ⟨h1, h2⟩ := ih (attempts + 1) (elapsed + POLL_INTERVAL) hret
        refine ⟨?_, ?_⟩
        · show (monitorLoop polls n (attempts + 1) (elapsed + POLL_INTERVAL)).attempts
            = attempts + (n + 1)
          omega
        · show (monitorLoop polls n (attempts + 1) (elapsed + POLL_INTERVAL)).elapsedSeconds
            = elapsed + POLL_INTERVAL * (n + 1)
          simp [POLL_INTERVAL] at h2 ⊢
          omega

/-- C6: when the remote never reports a terminal state, the monitor
finalizes the job as failed (`status = "error"`) with the timeout reason
only after performing exactly `MAX_RETRIES = 240` poll attempts with a
15-second interval after each, i.e. after `240 × 15 = 3600` seconds
elapsed — and conversely every timeout finalization of the monitor has
performed all 240 attempts and waited the full 3600 seconds, never
fewer. -/
theorem c6_monitor_timeout_exact (polls : ℕ → PollObs)
    (hnt : ∀ i, (polls i).isNonTerminal = true) :
    monitorMontageTask polls
      = { retVal := "timeout", dbStatus := "error",
          attempts := MAX_RETRIES,
          elapsedSeconds := MAX_RETRIES * POLL_INTERVAL }
    ∧ ∀ polls2 : ℕ → PollObs,
        (monitorMontageTask polls2).retVal = "timeout" →
        (monitorMontageTask polls2).attempts = MAX_RETRIES
        ∧ (monitorMontageTask polls2).elapsedSeconds = MAX_RETRIES * POLL_INTERVAL := by
  constructor
  · rw [monitorMontageTask, monitorLoop_all_nonterminal polls hnt]
    simp [MAX_RETRIES, POLL_INTERVAL]
  · intro polls2 hret
    have := monitorLoop_timeout_exhausts polls2 MAX_RETRIES 0 0 hret
    rw [monitorMontageTask]
    simp [MAX_RETRIES, POLL_INTERVAL] at this ⊢
    omega

/-- C6 witness: a remote that always answers with a non-terminal status
drives the monitor to the timeout finalization with exactly 240 attempts
and 3600 seconds elapsed. -/
theorem c6_monitor_timeout_exact_witness :
    monitorMontageTask (fun _ => PollObs.pending)
      = { retVal := "timeout", dbStatus := "error",
          attempts := MAX_RETRIES,
          elapsedSeconds := MAX_RETRIES * POLL_INTERVAL } :=
  (c6_monitor_timeout_exact (fun _ => PollObs.pending) (fun _ => rfl)).1

/-! ### Redis status stores (C10)

Both workers keep per-job status records as JSON objects in Redis, keyed
by a prefixed task id. The montage worker's `update_status`
(src/montage/app/tasks.py lines 20-29) merges into the existing record
when present and otherwise creates a fresh record; the avatar worker's
`update_status` (src/avatar/app/tasks.py lines 77-83) has no `else`
branch: when the key is absent it reads `None` and returns without any
write. -/

/-- A JSON-object status record: an insertion-ordered field map. -/
abbrev StatusFields := List (String × String)

/-- A Redis database restricted to string values holding JSON objects:
an insertion-ordered map from key to record. -/
abbrev RedisStore := List (String × StatusFields)

/-- `redis_client.get(key)`. -/
def redisGet (store : RedisStore) (key : String) : Option StatusFields :=
  (store.find? (fun kv => kv.1 == key)).map (fun kv => kv.2)

/-- `redis_client.set(key, value, ex=...)`: replace the value when the
key exists, else add the entry. -/
def redisSet (store : RedisStore) (key : String) (value : StatusFields) : RedisStore :=
  if store.any (fun kv => kv.1 == key) then
    store.map (fun kv => if kv.1 == key then (key, value) else kv)
  else
    store ++ [(key, value)]

/-- Python `dict.update`: existing fields are overwritten in place, new
fields are appended. -/
def dictUpdate (cur : StatusFields) (updates : StatusFields) : StatusFields :=
  updates.foldl
    (fun acc kv =>
      if acc.any (fun f => f.1 == kv.1) then
        acc.map (fun f => if f.1 == kv.1 then kv else f)
      else
        acc ++ [kv])
    cur

/-- The avatar worker's `update_status` (src/avatar/app/tasks.py lines
77-83): read `avatar_task:{task_id}`; only when a record exists, merge
the partial data into it and write it back; otherwise do nothing. -/
def avatarUpdateStatus (store : RedisStore) (taskId : String) (data : StatusFields) :
    RedisStore :=
  let key := "avatar_task:" ++ taskId
  match redisGet store key with
  | some cur => redisSet store key (dictUpdate cur data)
  | none => store

/-- The montage worker's `update_status` (src/montage/app/tasks.py lines
20-29): like the avatar variant but with an `else` branch that creates
the record when the key is absent. -/
def montageUpdateStatus (store : RedisStore) (videoId : String) (data : StatusFields) :
    RedisStore :=
  let key := "task:" ++ videoId
  match redisGet store key with
  | some cur => redisSet store key (dictUpdate cur data)
  | none => redisSet store key data

/-- C10: when a task's record is absent from the store (for example after
TTL expiry), the avatar worker's merge-style status update leaves the
store exactly as it was — it neither creates a record nor writes any
field, so a terminal-state update arriving after expiry is silently
lost. -/
theorem c10_avatar_update_absent_noop (store : RedisStore) (taskId : String)
    (data : StatusFields)
    (habsent : redisGet store ("avatar_task:" ++ taskId) = none) :
    avatarUpdateStatus store taskId data = store := by
  simp only [avatarUpdateStatus, habsent]

/-- C10 witness: updating a task absent from a concrete store (here one
holding only an unrelated record) changes nothing, even for a terminal
completed update. -/
theorem c10_avatar_update_absent_noop_witness :
    avatarUpdateStatus [("avatar_task:other", [("status", "processing")])] "t1"
        [("status", "completed"), ("progress", "100.0")]
      = [("avatar_task:other", [("status", "processing")])] :=
  c10_avatar_update_absent_noop
    [("avatar_task:other", [("status", "processing")])] "t1"
    [("status", "completed"), ("progress", "100.0")] rfl

/-! ### In-memory job registry capacity eviction (C4)

`src/app/main.py` keeps job status records in a process-wide
`OrderedDict` (line 28). `merge_videos` (lines 249-258) inserts the new
job's record and then runs
`while len(video_tasks) > MAX_STORAGE_ITEMS: video_tasks.popitem(last=False)`,
evicting the oldest records. This store has no TTL at all; the
Redis-backed stores (`src/montage/app/tasks.py`, `src/avatar/app/tasks.py`)
expire keys only via `ex=STATUS_EXPIRE_TIME`. -/

/-- A job status record of the in-memory registry. -/
abbrev TaskRecord := List (String × String)

/-- The in-memory `video_tasks` OrderedDict: insertion-ordered map from
job id to record. Ids are modelled as naturals standing for the opaque
uuid strings. -/
abbrev TaskTable := List (ℕ × TaskRecord)

/-- `MAX_STORAGE_ITEMS = 1000` (src/app/main.py line 27). -/
def MAX_STORAGE_ITEMS : ℕ := 1000

/-- `video_tasks[video_id] = {...}`: replace the record when the id
exists (never the case for fresh uuids), else append in insertion
order. -/
def tableSet (tasks : TaskTable) (id : ℕ) (rec : TaskRecord) : TaskTable :=
  if tasks.any (fun kv => kv.1 == id) then
    tasks.map (fun kv => if kv.1 == id then (id, rec) else kv)
  else
    tasks ++ [(id, rec)]

/-- The eviction loop `while len(video_tasks) > MAX_STORAGE_ITEMS:
video_tasks.popitem(last=False)` (src/app/main.py lines 257-258):
repeatedly drop the oldest entry while the table is over capacity. -/
def evictOldest : TaskTable → TaskTable
  | [] => []
  | e :: rest =>
    if (e :: rest).length > MAX_STORAGE_ITEMS then evictOldest rest
    else e :: rest

/-- Creating a job in the registry (src/app/main.py lines 249-258):
insert the record, then run the capacity eviction loop. -/
def enqueueTask (tasks : TaskTable) (id : ℕ) (rec : TaskRecord) : TaskTable :=
  evictOldest (tableSet tasks id rec)

/-- `video_tasks.get(video_id)`. -/
def lookupTask (tasks : TaskTable) (id : ℕ) : Option TaskRecord :=
  (tasks.find? (fun kv => kv.1 == id)).map (fun kv => kv.2)

theorem evictOldest_of_length_le (l : TaskTable)
    (h : l.length ≤ MAX_STORAGE_ITEMS) : evictOldest l = l := by
  cases l with
  | nil => rfl
  | cons e rest =>
    rw [evictOldest, if_neg]
    omega

theorem lookupTask_tableSet_isSome (tasks : TaskTable) (id : ℕ) (rec : TaskRecord)
    (k : ℕ) (h : (lookupTask tasks k).isSome) :
    (lookupTask (tableSet tasks id rec) k).isSome := by
  simp only [lookupTask, Option.isSome_map', List.find?_isSome] at h ⊢
  obtain ⟨x, hx, hpx⟩ := h
  unfold tableSet
  split
  · refine ⟨if x.1 == id then (id, rec) else x, List.mem_map.mpr ⟨x, hx, rfl⟩, ?_⟩
    by_cases hxi : x.1 == id
    · simp only [hxi, if_true]
      simp only [beq_iff_eq] at hxi hpx ⊢
      omega
    · simp only [hxi]
      simpa using hpx
  · exact ⟨x, List.mem_append_left _ hx, hpx⟩

/-- A processing-status record, as created at enqueue
(src/app/main.py lines 249-254). -/
def baseRecord : TaskRecord := [("status", "processing")]

/-- A registry at exactly `MAX_STORAGE_ITEMS` capacity: job 0 is the
oldest record, jobs 1..999 follow. -/
def c4FullStore : TaskTable :=
  (0, baseRecord) :: (List.range' 1 999).map (fun i => (i, baseRecord))

theorem c4FullStore_length : c4FullStore.length = 1000 := by
  simp [c4FullStore]

/-- C4 counterexample: job 0's record is present in a registry holding
`MAX_STORAGE_ITEMS` records, and creating one more job (id 1000) removes
it — an automatic removal caused by another job's creation, with no TTL
involved (the in-memory registry has no TTL at all). -/
theorem c4_capacity_eviction_counterexample :
    lookupTask c4FullStore 0 = some baseRecord
    ∧ lookupTask (enqueueTask c4FullStore 1000 baseRecord) 0 = none := by
  constructor
  · rfl
  · have hany : c4FullStore.any (fun kv => kv.1 == 1000) = false := by
      rw [List.any_eq_false]
      intro x hx
      rcases List.mem_cons.mp hx with rfl | hx
      · decide
      · obtain ⟨i, hi, rfl⟩ := List.mem_map.mp hx
        obtain ⟨j, hj, rfl⟩ := List.mem_range'.mp hi
        simp only [beq_iff_eq]
        omega
    have hset : tableSet c4FullStore 1000 baseRecord
        = c4FullStore ++ [(1000, baseRecord)] := by
      unfold tableSet
      rw [if_neg]
      simp [hany]
    have hlen : (c4FullStore ++ [(1000, baseRecord)]).length = 1001 := by
      simp [c4FullStore_length]
    have hevict : evictOldest (c4FullStore ++ [(1000, baseRecord)])
        = (List.range' 1 999).map (fun i => (i, baseRecord)) ++ [(1000, baseRecord)] := by
      unfold c4FullStore
      rw [List.cons_append, evictOldest, if_pos]
      · apply evictOldest_of_length_le
        simp only [List.length_append, List.length_map, List.length_range',
          List.length_singleton, MAX_STORAGE_ITEMS]
        omega
      · simp only [List.length_cons, List.length_append, List.length_map,
          List.length_range', List.length_singleton, MAX_STORAGE_ITEMS]
        omega
    rw [enqueueTask, hset, hevict]
    simp only [lookupTask, Option.map_eq_none', List.find?_eq_none]
    intro x hx
    rcases List.mem_append.mp hx with hmem | hmem
    · obtain ⟨i, hi, rfl⟩ := List.mem_map.mp hmem
      obtain ⟨j, hj, rfl⟩ := List.mem_range'.mp hi
      simp only [beq_iff_eq]
      omega
    · simp only [List.mem_singleton] at hmem
      subst hmem
      decide

/-- C4 amended: capacity eviction is a second automatic removal path of
the in-memory registry — creating a job while the registry already holds
`MAX_STORAGE_ITEMS` (1000) records evicts the oldest record(s), TTL
notwithstanding (this store has no TTL) — but while the registry holds
fewer than 1000 records, no creation of another job removes any existing
record. -/
theorem c4_store_removal_amended (tasks : TaskTable) (id : ℕ) (rec : TaskRecord)
    (k : ℕ) (hlen : tasks.length < MAX_STORAGE_ITEMS)
    (hsome : (lookupTask tasks k).isSome) :
    (lookupTask (enqueueTask tasks id rec) k).isSome := by
  unfold enqueueTask
  rw [evictOldest_of_length_le]
  · exact lookupTask_tableSet_isSome tasks id rec k hsome
  · unfold tableSet
    split
    · simpa using Nat.le_of_lt hlen
    · simp only [List.length_append, List.length_singleton]
      omega

/-- C4 amended witness: in a one-record registry, creating a second job
leaves the first job's record present. -/
theorem c4_store_removal_amended_witness :
    (lookupTask (enqueueTask [(0, baseRecord)] 1 baseRecord) 0).isSome :=
  c4_store_removal_amended [(0, baseRecord)] 1 baseRecord 0
    (by simp [MAX_STORAGE_ITEMS]) (by rfl)

/-! ### Finalizer updates (C1)

The webhook correlator `handle_callback`
(src/avatar/app/api/endpoints/callbacks.py lines 17-89) and the monitor
`monitor_montage_task` (src/avatar/app/tasks.py lines 85-172) both
finalize job records with a plain unconditional update keyed by id — the
current status of the record is never read before writing. -/

/-- A `motion_cache` row as touched by the webhook correlator. -/
structure MotionCacheRecord where
  status : String
  motionVideoUrl : Option String
  motionThumbnailUrl : Option String
  errorLog : Option String
deriving DecidableEq, Repr

/-- The correlated-record update of `handle_callback`
(src/avatar/app/api/endpoints/callbacks.py lines 33-87): on
`state == "success"` with an extracted result URL, set status
`"success"` and the video/thumbnail URLs; on `"success"` without a URL,
no write happens; on any other state, set status `"failed"` and the
error log — in every case without consulting the record's current
status. -/
def handleCallbackUpdate (rec : MotionCacheRecord) (state : String)
    (videoUrl : Option String) (thumbUrl : Option String)
    (failMsg : Option String) : MotionCacheRecord :=
  if state = "success" then
    match videoUrl with
    | some u =>
        { rec with
          status := "success",
          motionVideoUrl := some u,
          motionThumbnailUrl := thumbUrl }
    | none => rec
  else
    { rec with status := "failed", errorLog := failMsg }

/-- A `final_montages` row as touched by the monitor. -/
structure FinalMontageRecord where
  status : String
  finalVideoUrl : Option String
  finalThumbnailUrl : Option String
  errorSetting : Option String
deriving DecidableEq, Repr

/-- What the monitor's single finalizing write is, per terminal
observation (src/avatar/app/tasks.py lines 105-172): remote completed
and download succeeded sets `"ready"` with the uploaded URLs; a failed
download, a remote failure, or attempt exhaustion sets `"error"` with
the corresponding message — always without consulting the record's
current status. -/
def monitorFinalizeRecord (rec : FinalMontageRecord) : PollObs → FinalMontageRecord
  | .completedOk =>
      { rec with
        status := "ready",
        finalVideoUrl := some "final_montage.mp4",
        finalThumbnailUrl := some "thumb_montage.jpg" }
  | .completedDownloadFail code =>
      { rec with
        status := "error",
        errorSetting := some ("Failed to download: " ++ toString code) }
  | .failedRemote msg =>
      { rec with status := "error", errorSetting := some msg }
  | _ => rec

/-- The monitor's timeout write after exhausting all attempts
(src/avatar/app/tasks.py lines 167-172). -/
def monitorTimeoutWrite (rec : FinalMontageRecord) : FinalMontageRecord :=
  { rec with
    status := "error",
    errorSetting := some "Timeout waiting for montage" }

/-- A record already finalized as successful by the webhook path. -/
def c1CompletedMotion : MotionCacheRecord :=
  { status := "success", motionVideoUrl := some "https://storage/result_a.mp4",
    motionThumbnailUrl := some "https://storage/thumb_a.jpg", errorLog := none }

/-- A montage record already finalized as ready. -/
def c1CompletedMontage : FinalMontageRecord :=
  { status := "ready", finalVideoUrl := some "https://storage/final_a.mp4",
    finalThumbnailUrl := none, errorSetting := none }

/-- C1 is violated by the code: both finalizers apply last-write-wins
updates with no terminal-state guard. A record already finalized
`"success"` by the webhook path is overwritten to `"failed"` by a late
failure notice for the same external id, and a montage record already
`"ready"` is regressed to `"error"` by a late monitor timeout write —
the terminal state is mutated, not idempotently preserved. -/
theorem c1_unguarded_finalize_overwrites_terminal :
    (handleCallbackUpdate c1CompletedMotion "fail" none none
        (some "late failure")).status = "failed"
    ∧ handleCallbackUpdate c1CompletedMotion "fail" none none
        (some "late failure") ≠ c1CompletedMotion
    ∧ (monitorTimeoutWrite c1CompletedMontage).status = "error"
    ∧ monitorTimeoutWrite c1CompletedMontage ≠ c1CompletedMontage
    ∧ (monitorFinalizeRecord c1CompletedMontage
        (PollObs.failedRemote "stale remote failure")).status = "error" := by
  refine ⟨?_, ?_, rfl, ?_, rfl⟩
  · decide
  · decide
  · decide

end VideoMontage
